import Mathlib

/-!
# Verification of the SES bounce blacklist service

A shallow embedding of the notification-ingestion and persistence pipeline of
the `aws-ses-bounce-rs` service (`src/main.rs`, `src/domain.rs`), together with
theorems settling the specification claims about it.

Modelling conventions:

* JSON values are modelled by the inductive `Json`; the external `serde_json`
  parser (bytes/string to JSON value) is a parameter, while the derive-generated
  decoding of JSON values into the domain structs of `src/domain.rs` is embedded
  faithfully (field renames, mandatory vs `Option` fields, externally tagged
  unit-variant enums, unknown keys ignored).
* The relational backend is an external collaborator.  It is modelled as a list
  of rows together with the `(domain_id, email)` uniqueness constraint the
  schema declares; exogenous storage failures (connection loss, timeouts) are
  injected through an oracle argument.  The auto-assigned `id` column is
  omitted: it is assigned by the backend and never read by this code.
* The outbound handshake-confirmation fetch result is a `Bool` parameter whose
  value is ignored, mirroring `let _ = client.get(a).send().await`.
* A `.unwrap()` on a failing value is modelled by the `Outcome.panicked`
  result of the request handler.
-/

/-- JSON values, the common currency of the envelope and payload decoders. -/
inductive Json where
  | null : Json
  | bool : Bool → Json
  | num : Int → Json
  | str : String → Json
  | arr : List Json → Json
  | obj : List (String × Json) → Json
deriving Repr

/-- Does `hay` start with `needle` (on character lists)? -/
def charsStartWith : List Char → List Char → Bool
  | [], _ => true
  | _ :: _, [] => false
  | n :: ns, h :: hs => if n = h then charsStartWith ns hs else false

/-- Does `needle` occur contiguously inside `hay` (on character lists)? -/
def charsContain (needle : List Char) : List Char → Bool
  | [] => needle.isEmpty
  | h :: hs => if charsStartWith needle (h :: hs) then true else charsContain needle hs

/-- Substring containment, modelling Rust `str::contains(&str)`. -/
def strContains (hay needle : String) : Bool :=
  charsContain needle.data hay.data

/-! ## Domain types (from `src/domain.rs`) -/

/-- `SnsNotificationType` from `src/domain.rs`. -/
inductive SnsNotificationType where
  | SubscriptionConfirmation : SnsNotificationType
  | Notification : SnsNotificationType
deriving Repr, DecidableEq

/-- `SnsNotification` from `src/domain.rs` (the outer SNS envelope). -/
structure SnsNotification where
  type_field : SnsNotificationType
  message : Option String
  subscribe_url : Option String
deriving Repr, DecidableEq

/-- `NotificationType` from `src/domain.rs`. -/
inductive NotificationType where
  | Bounce : NotificationType
  | Complaint : NotificationType
  | Delivery : NotificationType
  | AmazonSnsSubscriptionSucceeded : NotificationType
deriving Repr, DecidableEq

/-- `BouncedRecipient` from `src/domain.rs`. -/
structure BouncedRecipient where
  email_address : String
  action : Option String
  status : Option String
  diagnostic_code : Option String
deriving Repr, DecidableEq

/-- `Bounce` from `src/domain.rs`. -/
structure Bounce where
  feedback_id : String
  bounce_type : String
  bounce_sub_type : String
  bounced_recipients : List BouncedRecipient
  timestamp : String
  remote_mta_ip : Option String
  reporting_mta : Option String
deriving Repr, DecidableEq

/-- `Mail` from `src/domain.rs`. -/
structure Mail where
  timestamp : String
  source : String
  source_arn : String
  source_ip : String
  caller_identity : String
  sending_account_id : String
  message_id : String
  destination : List String
deriving Repr, DecidableEq

/-- `Message` from `src/domain.rs` (the inner notification payload). -/
structure Message where
  notification_type : NotificationType
  bounce : Option Bounce
  message : Option String
  mail : Option Mail
deriving Repr, DecidableEq

/-! ## Serde-derive decoding of the domain types

The derives in `src/domain.rs` give the standard serde semantics: a field of
type `Option<T>` may be absent or `null` (decoding to `None`); any other field
is mandatory and its absence is a decode error; unit-variant enums decode from
the JSON string equal to the variant name; unknown object keys are ignored. -/

/-- First binding of a key in a JSON object field list (serde reads each
declared field by name). -/
def jsonLookup (fields : List (String × Json)) (name : String) : Option Json :=
  match fields with
  | [] => none
  | (k, v) :: rest => if k = name then some v else jsonLookup rest name

/-- Decode a mandatory `String` field: absent or non-string is a decode error. -/
def reqStrField (fields : List (String × Json)) (name : String) : Option String :=
  match jsonLookup fields name with
  | some (Json.str s) => some s
  | _ => none

/-- Decode an `Option<String>` field: absent or `null` is `none`; a string is
`some`; any other value is a decode error (outer `none`). -/
def optStrField (fields : List (String × Json)) (name : String) :
    Option (Option String) :=
  match jsonLookup fields name with
  | none => some none
  | some Json.null => some none
  | some (Json.str s) => some (some s)
  | some _ => none

/-- Decode every element of a JSON array, failing if any element fails. -/
def decodeEach (dec : Json → Option α) : List Json → Option (List α)
  | [] => some []
  | x :: xs =>
    match dec x with
    | none => none
    | some a =>
      match decodeEach dec xs with
      | none => none
      | some ys => some (a :: ys)

/-- Decode `SnsNotificationType` (externally tagged unit variants). -/
def decodeSnsNotificationType (j : Json) : Option SnsNotificationType :=
  match j with
  | Json.str s =>
    if s = "SubscriptionConfirmation" then some SnsNotificationType.SubscriptionConfirmation
    else if s = "Notification" then some SnsNotificationType.Notification
    else none
  | _ => none

/-- Decode the outer envelope `SnsNotification`: `Type` is mandatory,
`Message` and `SubscribeURL` are optional strings. -/
def decodeSnsNotification (j : Json) : Option SnsNotification :=
  match j with
  | Json.obj fields =>
    match jsonLookup fields "Type" with
    | none => none
    | some t =>
      match decodeSnsNotificationType t with
      | none => none
      | some ty =>
        match optStrField fields "Message", optStrField fields "SubscribeURL" with
        | some m, some u => some ⟨ty, m, u⟩
        | _, _ => none
  | _ => none

/-- Decode `NotificationType`: exactly the four declared variants; any other
string is a decode error (there is no catch-all variant in `src/domain.rs`). -/
def decodeNotificationType (j : Json) : Option NotificationType :=
  match j with
  | Json.str s =>
    if s = "Bounce" then some NotificationType.Bounce
    else if s = "Complaint" then some NotificationType.Complaint
    else if s = "Delivery" then some NotificationType.Delivery
    else if s = "AmazonSnsSubscriptionSucceeded" then
      some NotificationType.AmazonSnsSubscriptionSucceeded
    else none
  | _ => none

/-- Decode `BouncedRecipient`: `emailAddress` is mandatory (no serde default),
the remaining fields are `Option`s. -/
def decodeBouncedRecipient (j : Json) : Option BouncedRecipient :=
  match j with
  | Json.obj fields =>
    match reqStrField fields "emailAddress", optStrField fields "action",
        optStrField fields "status", optStrField fields "diagnosticCode" with
    | some e, some a, some s, some dc => some ⟨e, a, s, dc⟩
    | _, _, _, _ => none
  | _ => none

/-- Decode `Bounce`.  `feedbackId`, `bounceType`, `bounceSubType`,
`bouncedRecipients` and `timestamp` are mandatory: the struct derives `Default`
but carries no `#[serde(default)]`, so serde treats a missing field as a decode
error rather than substituting the default. -/
def decodeBounce (j : Json) : Option Bounce :=
  match j with
  | Json.obj fields =>
    match reqStrField fields "feedbackId", reqStrField fields "bounceType",
        reqStrField fields "bounceSubType", reqStrField fields "timestamp" with
    | some fid, some bt, some bst, some ts =>
      match jsonLookup fields "bouncedRecipients" with
      | some (Json.arr xs) =>
        match decodeEach decodeBouncedRecipient xs with
        | none => none
        | some recips =>
          match optStrField fields "remoteMtaIp", optStrField fields "reportingMTA" with
          | some ip, some mta => some ⟨fid, bt, bst, recips, ts, ip, mta⟩
          | _, _ => none
      | _ => none
    | _, _, _, _ => none
  | _ => none

/-- Decode `Mail`: every field is mandatory. -/
def decodeMail (j : Json) : Option Mail :=
  match j with
  | Json.obj fields =>
    match reqStrField fields "timestamp", reqStrField fields "source",
        reqStrField fields "sourceArn", reqStrField fields "sourceIp" with
    | some ts, some src, some arn, some ip =>
      match reqStrField fields "callerIdentity", reqStrField fields "sendingAccountId",
          reqStrField fields "messageId" with
      | some ci, some acct, some mid =>
        match jsonLookup fields "destination" with
        | some (Json.arr xs) =>
          match decodeEach (fun x => match x with
              | Json.str s => some s
              | _ => none) xs with
          | none => none
          | some dest => some ⟨ts, src, arn, ip, ci, acct, mid, dest⟩
        | _ => none
      | _, _, _ => none
    | _, _, _, _ => none
  | _ => none

/-- Decode an `Option<Bounce>` field. -/
def optBounceField (fields : List (String × Json)) : Option (Option Bounce) :=
  match jsonLookup fields "bounce" with
  | none => some none
  | some Json.null => some none
  | some j =>
    match decodeBounce j with
    | none => none
    | some b => some (some b)

/-- Decode an `Option<Mail>` field. -/
def optMailField (fields : List (String × Json)) : Option (Option Mail) :=
  match jsonLookup fields "mail" with
  | none => some none
  | some Json.null => some none
  | some j =>
    match decodeMail j with
    | none => none
    | some m => some (some m)

/-- Decode the inner payload `Message`: `notificationType` is mandatory and
must be one of the four declared variants; `bounce`, `message` and `mail` are
optional. -/
def decodeMessage (j : Json) : Option Message :=
  match j with
  | Json.obj fields =>
    match jsonLookup fields "notificationType" with
    | none => none
    | some nt =>
      match decodeNotificationType nt with
      | none => none
      | some ty =>
        match optBounceField fields, optStrField fields "message",
            optMailField fields with
        | some b, some m, some ml => some ⟨ty, b, m, ml⟩
        | _, _, _ => none
  | _ => none

/-! ## Serde-derive serialization (for the persisted `reason` string)

`handle_bounce` stores `serde_json::to_string(&msg)` as the row's `reason`.
Serde serializes struct fields in declaration order, renders `None` as `null`,
and renders unit enum variants as their name. -/

/-- Escape one character for a JSON string literal (quote and backslash; the
domain strings under test contain no control characters). -/
def escapeChar (c : Char) : String :=
  if c = '\x22' then "\\\x22"
  else if c = '\\' then "\\\\"
  else String.mk [c]

/-- Escape a string for inclusion in a JSON string literal. -/
def escapeString (s : String) : String :=
  s.data.foldl (fun acc c => acc ++ escapeChar c) ""

mutual

/-- Render a JSON value to its serialized text, as `serde_json` does. -/
def renderJson : Json → String
  | Json.null => "null"
  | Json.bool b => if b then "true" else "false"
  | Json.num n => toString n
  | Json.str s => "\x22" ++ escapeString s ++ "\x22"
  | Json.arr xs => "[" ++ renderJsonList xs ++ "]"
  | Json.obj fs => "\x7b" ++ renderJsonFields fs ++ "\x7d"

/-- Render the comma-separated elements of a JSON array. -/
def renderJsonList : List Json → String
  | [] => ""
  | [x] => renderJson x
  | x :: y :: xs => renderJson x ++ "," ++ renderJsonList (y :: xs)

/-- Render the comma-separated members of a JSON object. -/
def renderJsonFields : List (String × Json) → String
  | [] => ""
  | [(k, v)] => "\x22" ++ escapeString k ++ "\x22:" ++ renderJson v
  | (k, v) :: y :: xs =>
    "\x22" ++ escapeString k ++ "\x22:" ++ renderJson v ++ "," ++ renderJsonFields (y :: xs)

end

/-- Serialize an `Option<String>` field value. -/
def optStrJson : Option String → Json
  | none => Json.null
  | some s => Json.str s

/-- Variant name of a `NotificationType` (serde unit-variant serialization). -/
def notificationTypeName : NotificationType → String
  | NotificationType.Bounce => "Bounce"
  | NotificationType.Complaint => "Complaint"
  | NotificationType.Delivery => "Delivery"
  | NotificationType.AmazonSnsSubscriptionSucceeded => "AmazonSnsSubscriptionSucceeded"

/-- Serialize a `BouncedRecipient` (camelCase field names, declaration order). -/
def bouncedRecipientToJson (r : BouncedRecipient) : Json :=
  Json.obj [("emailAddress", Json.str r.email_address),
    ("action", optStrJson r.action),
    ("status", optStrJson r.status),
    ("diagnosticCode", optStrJson r.diagnostic_code)]

/-- Serialize a `Bounce`. -/
def bounceToJson (b : Bounce) : Json :=
  Json.obj [("feedbackId", Json.str b.feedback_id),
    ("bounceType", Json.str b.bounce_type),
    ("bounceSubType", Json.str b.bounce_sub_type),
    ("bouncedRecipients", Json.arr (b.bounced_recipients.map bouncedRecipientToJson)),
    ("timestamp", Json.str b.timestamp),
    ("remoteMtaIp", optStrJson b.remote_mta_ip),
    ("reportingMTA", optStrJson b.reporting_mta)]

/-- Serialize a `Mail`. -/
def mailToJson (m : Mail) : Json :=
  Json.obj [("timestamp", Json.str m.timestamp),
    ("source", Json.str m.source),
    ("sourceArn", Json.str m.source_arn),
    ("sourceIp", Json.str m.source_ip),
    ("callerIdentity", Json.str m.caller_identity),
    ("sendingAccountId", Json.str m.sending_account_id),
    ("messageId", Json.str m.message_id),
    ("destination", Json.arr (m.destination.map Json.str))]

/-- Serialize a `Message`, as `serde_json::to_string(&msg)` does in
`handle_bounce`. -/
def messageToJson (m : Message) : Json :=
  Json.obj [("notificationType", Json.str (notificationTypeName m.notification_type)),
    ("bounce", match m.bounce with
      | none => Json.null
      | some b => bounceToJson b),
    ("message", optStrJson m.message),
    ("mail", match m.mail with
      | none => Json.null
      | some ml => mailToJson ml)]

/-! ## Address normalizer (`extract_email_address`, `src/main.rs` 231-245)

The source first checks that the input contains both `<` and `>` (else returns
it unchanged), then searches with the regex `<(.*)>`.  In the `regex` crate
`.` matches any character except `\n`, matching is leftmost-first and `.*` is
greedy, so the search finds the first `<` that is followed by a `>` with no
intervening newline, and captures up to the last such `>`; if no position
matches, the `None` arm returns the input unchanged. -/

/-- Index of the last occurrence of `c`, if any. -/
def lastIdxOf (c : Char) : List Char → Option Nat
  | [] => none
  | a :: rest =>
    match lastIdxOf c rest with
    | some j => some (j + 1)
    | none => if a = c then some 0 else none

/-- Index of the first occurrence of `c`, if any. -/
def firstIdxOf (c : Char) : List Char → Option Nat
  | [] => none
  | a :: rest =>
    if a = c then some 0
    else (firstIdxOf c rest).map (· + 1)

/-- The capture of the leftmost-first, greedy match of `<(.*)>` (with `.` not
matching `\n`), or `none` when the regex does not match. -/
def regexCapture : List Char → Option (List Char)
  | [] => none
  | c :: rest =>
    if c = '<' then
      match lastIdxOf '>' (rest.takeWhile (fun x => x ≠ '\n')) with
      | some j => some ((rest.takeWhile (fun x => x ≠ '\n')).take j)
      | none => regexCapture rest
    else regexCapture rest

/-- `extract_email_address` from `src/main.rs`: return the input unchanged
unless it contains both `<` and `>`, otherwise return the regex capture (or
the input unchanged when the regex finds no match). -/
def extract_email_address (s : String) : String :=
  if s.data.contains '<' = false ∨ s.data.contains '>' = false then s
  else
    match regexCapture s.data with
    | some cap => String.mk cap
    | none => s

/-- Formalization of the spec's words for the normalizer's bracketed case:
"the substring strictly between the first `<` and the last `>`".
Used only to compare `extract_email_address` against the specification. -/
def specBetweenBrackets (s : String) : String :=
  match firstIdxOf '<' s.data, lastIdxOf '>' s.data with
  | some i, some j => String.mk ((s.data.drop (i + 1)).take (j - (i + 1)))
  | _, _ => s

/-! ## The blacklist store (external relational backend)

The schema keys the `blacklist` relation by a `(domain_id, email)` uniqueness
constraint.  `dupSignal` models the uniqueness-violation message text each
backend driver produces (`sqlx` MySQL: MySQL error 1062 "Duplicate entry ...";
`tokio_postgres`: "duplicate key value violates unique constraint ...");
exogenous failures (connection loss, timeouts, failed `build_pg_pool`) are
injected by an oracle giving the failure message for an attempt, if any. -/

/-- The two interchangeable backends (`DBType` in `src/main.rs`). -/
inductive Backend where
  | mysql : Backend
  | pg : Backend
deriving Repr, DecidableEq

/-- A persisted blacklist row (`Blacklist` in `src/domain.rs`; the
backend-assigned `id` column is omitted, it is never read). -/
structure Blacklist where
  domain_id : Int
  email : String
  reason : String
deriving Repr, DecidableEq

/-- The state of the `blacklist` relation, rows in insertion order. -/
structure DbState where
  rows : List Blacklist
deriving Repr, DecidableEq

/-- Does a row for `(d, e)` exist (the uniqueness-constraint key)? -/
def DbState.hasRow (st : DbState) (d : Int) (e : String) : Bool :=
  st.rows.any (fun r => r.domain_id == d && r.email == e)

/-- The uniqueness-violation message text of each backend driver, as rendered
by `err.to_string()` in `src/main.rs`.  MySQL's error 1062 text contains
"Duplicate entry"; Postgres's does not. -/
def dupSignal : Backend → String → String
  | Backend.mysql, email =>
    "error returned from database: 1062 (23000): Duplicate entry " ++ email ++
      " for key blacklist.domain_id"
  | Backend.pg, _ =>
    "db error: ERROR: duplicate key value violates unique constraint blacklist_domain_id_email_key"

/-- Outcome of one `INSERT` as seen by `handle_bounce`: success, or an error
message string. -/
inductive InsertOutcome where
  | ok : InsertOutcome
  | dbErr : String → InsertOutcome
deriving Repr, DecidableEq

/-- One `INSERT INTO blacklist (domain_id, email, reason)` against the
backend: an exogenous failure (from the oracle, indexed by attempt number)
leaves the state unchanged; a duplicate `(domain_id, email)` key yields the
backend's uniqueness-violation message and leaves the state unchanged;
otherwise the row is appended. -/
def insertStep (b : Backend) (oracle : Nat → Option String) (k : Nat)
    (st : DbState) (d : Int) (email reason : String) : InsertOutcome × DbState :=
  match oracle k with
  | some m => (InsertOutcome.dbErr m, st)
  | none =>
    if st.hasRow d email then (InsertOutcome.dbErr (dupSignal b email), st)
    else (InsertOutcome.ok, ⟨st.rows ++ [⟨d, email, reason⟩]⟩)

/-! ## HTTP responses and the request handlers (`src/main.rs`) -/

/-- The HTTP responses the handlers build. -/
inductive HttpResp where
  | okText : String → HttpResp
  | okJson : Json → HttpResp
  | badRequestJson : Json → HttpResp
  | internalErrorJson : Json → HttpResp
deriving Repr

/-- Result of a request-handling unit: a response, or a panic (a failing
`.unwrap()` crashes the unit instead of responding). -/
inductive Outcome where
  | panicked : Outcome
  | responded : HttpResp → Outcome
deriving Repr

/-- `json!({"status": "success"})`, the full-persistence-success body. -/
def successJson : Json := Json.obj [("status", Json.str "success")]

/-- The 400 conflict body built in `handle_bounce` for a duplicate entry. -/
def conflictJson (email : String) : Json :=
  Json.obj [("status", Json.str "fail"),
    ("message", Json.str ("blacklist entry already exists for: " ++ email))]

/-- Rust `format!("{:?}", err)` of an error string: the string, quoted. -/
def debugFormat (m : String) : String := "\x22" ++ escapeString m ++ "\x22"

/-- The 500 error body built in `handle_bounce` for a non-duplicate failure. -/
def errorJson (m : String) : Json :=
  Json.obj [("status", Json.str "error"), ("message", Json.str (debugFormat m))]

/-- Result of the per-recipient persistence loop in `handle_bounce`:
an early-exit response (if any), the resulting store state, and the
recipients for which an insert was attempted, in order. -/
structure LoopRes where
  resp : Option HttpResp
  st : DbState
  attempts : List String
deriving Repr

/-- The `for bounce in &bounces` loop of `handle_bounce` (`src/main.rs`
263-322): insert each normalized recipient in order; on the first failing
insert classify the error by `err.contains("Duplicate entry")` into a 400
conflict or 500 error response and stop. -/
def bounceLoop (b : Backend) (oracle : Nat → Option String) (d : Int)
    (reason : String) : DbState → Nat → List String → LoopRes
  | st, _, [] => ⟨none, st, []⟩
  | st, k, e :: rest =>
    match insertStep b oracle k st d e reason with
    | (InsertOutcome.ok, st2) =>
      let r := bounceLoop b oracle d reason st2 (k + 1) rest
      ⟨r.resp, r.st, e :: r.attempts⟩
    | (InsertOutcome.dbErr m, st2) =>
      if strContains m "Duplicate entry" then
        ⟨some (HttpResp.badRequestJson (conflictJson e)), st2, [e]⟩
      else
        ⟨some (HttpResp.internalErrorJson (errorJson m)), st2, [e]⟩

/-- Result of `handle_bounce`: the response, the store state, and the
recipients for which an insert was attempted, in order. -/
structure HandleBounceRes where
  resp : HttpResp
  st : DbState
  attempts : List String
deriving Repr

/-- The `reason` string persisted with every row:
`serde_json::to_string(&msg.clone()).unwrap()`. -/
def messageReason (msg : Message) : String :=
  renderJson (messageToJson msg)

/-- The `bounces` list of `handle_bounce`: the recipients normalized by
`extract_email_address`, in payload order. -/
def bounceRecipients (bounce : Bounce) : List String :=
  bounce.bounced_recipients.map (fun r => extract_email_address r.email_address)

/-- `handle_bounce` (`src/main.rs` 247-333): serialize the message as the
`reason`; without a `bounce` field answer the plain `200 "ok"`; otherwise
normalize every recipient, run the persistence loop, and answer
`200 {"status":"success"}` when the loop finished without failure. -/
def handle_bounce (b : Backend) (oracle : Nat → Option String) (msg : Message)
    (domain_id : Int) (st : DbState) : HandleBounceRes :=
  let reason := messageReason msg
  match msg.bounce with
  | none => ⟨HttpResp.okText "ok", st, []⟩
  | some bounce =>
    let bounces := bounceRecipients bounce
    let res := bounceLoop b oracle domain_id reason st 0 bounces
    match res.resp with
    | some resp => ⟨resp, res.st, res.attempts⟩
    | none => ⟨HttpResp.okJson successJson, res.st, res.attempts⟩

/-- Result of the ingestion entry point: an outcome (response or panic), the
store state, and the attempted inserts. -/
structure HandleRes where
  out : Outcome
  st : DbState
  attempts : List String
deriving Repr

/-- `handle_sns_notification` (`src/main.rs` 187-228).  `input` is the result
of `serde_json` parsing the request bytes (`none` for invalid JSON);
`fetchOk` is the ignored result of the handshake-confirmation fetch;
`parseJson` is the external JSON parser applied to the inner `Message` string.
Envelope decode failure answers `200 "ok"`; a `SubscriptionConfirmation`
unwraps `SubscribeURL`, fires the fetch and answers `200 "ok"`; a
`Notification` unwraps `Message` and its decode, then dispatches on the
payload's type, handling only `Bounce`. -/
def handle_sns_notification (b : Backend) (fetchOk : Bool)
    (oracle : Nat → Option String) (parseJson : String → Option Json)
    (input : Option Json) (domain_id : Int) (st : DbState) : HandleRes :=
  match input with
  | none => ⟨Outcome.responded (HttpResp.okText "ok"), st, []⟩
  | some j =>
    match decodeSnsNotification j with
    | none => ⟨Outcome.responded (HttpResp.okText "ok"), st, []⟩
    | some notification =>
      match notification.type_field with
      | SnsNotificationType.SubscriptionConfirmation =>
        match notification.subscribe_url with
        | none => ⟨Outcome.panicked, st, []⟩
        | some _url =>
          let _ := fetchOk
          ⟨Outcome.responded (HttpResp.okText "ok"), st, []⟩
      | SnsNotificationType.Notification =>
        match notification.message with
        | none => ⟨Outcome.panicked, st, []⟩
        | some msgStr =>
          match parseJson msgStr with
          | none => ⟨Outcome.panicked, st, []⟩
          | some mj =>
            match decodeMessage mj with
            | none => ⟨Outcome.panicked, st, []⟩
            | some message =>
              match message.notification_type with
              | NotificationType.Bounce =>
                let r := handle_bounce b oracle message domain_id st
                ⟨Outcome.responded r.resp, r.st, r.attempts⟩
              | _ => ⟨Outcome.responded (HttpResp.okText "ok"), st, []⟩

/-! ## The lookup endpoint (`is_email_blacklisted`, `src/main.rs` 124-185) -/

/-- `sqlx` errors as matched by the MySQL lookup branch. -/
inductive SqlxError where
  | rowNotFound : SqlxError
  | other : String → SqlxError
deriving Repr, DecidableEq

/-- `sqlx`'s `fetch_one` against the backend: an exogenous failure if the
oracle provides one, else the first matching row, else `RowNotFound`. -/
def mysqlFetchOne (qerr : Option String) (st : DbState) (d : Int) (e : String) :
    Except SqlxError Unit :=
  match qerr with
  | some m => Except.error (SqlxError.other m)
  | none => if st.hasRow d e then Except.ok () else Except.error SqlxError.rowNotFound

/-- `tokio_postgres`'s `query_opt`: an exogenous failure if the oracle
provides one, else `some` of the first matching row or `none`. -/
def pgQueryOpt (qerr : Option String) (st : DbState) (d : Int) (e : String) :
    Except String (Option Unit) :=
  match qerr with
  | some m => Except.error m
  | none => Except.ok (if st.hasRow d e then some () else none)

/-- Render the `found` result as the endpoint's HTTP response. -/
def renderFound : Except String Bool → HttpResp
  | Except.ok blacklisted =>
    HttpResp.okJson (Json.obj [("success", Json.bool true),
      ("data", Json.obj [("blacklisted", Json.bool blacklisted)])])
  | Except.error err =>
    HttpResp.internalErrorJson (Json.obj [("success", Json.bool false),
      ("error", Json.str err)])

/-- `is_email_blacklisted` (`src/main.rs` 124-185).  `connFail` models a
failing `build_pg_pool` on the Postgres branch; `qerr` is the exogenous
query-failure oracle.  MySQL maps `fetch_one`'s `RowNotFound` to `Ok(false)`;
Postgres maps `query_opt`'s `None` to `Ok(false)`. -/
def is_email_blacklisted (b : Backend) (connFail : Bool) (qerr : Option String)
    (st : DbState) (domain_id : Int) (email : String) : HttpResp :=
  match b with
  | Backend.mysql =>
    let found : Except String Bool :=
      match mysqlFetchOne qerr st domain_id email with
      | Except.ok _ => Except.ok true
      | Except.error SqlxError.rowNotFound => Except.ok false
      | Except.error (SqlxError.other m) =>
        Except.error ("🔥 Failed to query the database: " ++ debugFormat m)
    renderFound found
  | Backend.pg =>
    if connFail then
      HttpResp.internalErrorJson (Json.obj [("success", Json.bool false),
        ("error", Json.str "Failed to connect to the database")])
    else
      let found : Except String Bool :=
        match pgQueryOpt qerr st domain_id email with
        | Except.ok (some _) => Except.ok true
        | Except.ok none => Except.ok false
        | Except.error m =>
          Except.error ("🔥 Failed to query the database: " ++ debugFormat m)
      renderFound found

/-! ## Test fixtures (concrete values used by witnesses and counterexamples) -/

/-- The rows inserted for a list of normalized recipient emails. -/
def insertedRows (d : Int) (reason : String) (emails : List String) : List Blacklist :=
  emails.map (fun e => Blacklist.mk d e reason)

/-- The oracle injecting no exogenous storage failure. -/
def noFail : Nat → Option String := fun _ => none

/-- An empty blacklist store. -/
def emptyDb : DbState := ⟨[]⟩

/-- A store already holding tenant 7's row for `a@x.com`. -/
def seededDb : DbState := ⟨[⟨7, "a@x.com", "r"⟩]⟩

/-- A bounced recipient with the bare address `a@x.com`. -/
def sampleRecipient : BouncedRecipient := ⟨"a@x.com", none, none, none⟩

/-- A bounce detail with the single recipient `a@x.com`. -/
def sampleBounce : Bounce :=
  ⟨"fid", "Permanent", "General", [sampleRecipient], "2024-01-01", none, none⟩

/-- A bounce message with the single recipient `a@x.com`. -/
def sampleMessage : Message :=
  ⟨NotificationType.Bounce, some sampleBounce, none, none⟩

/-- A bounce detail whose recipients sequence is empty. -/
def emptyRecipBounce : Bounce :=
  ⟨"fid", "Transient", "General", [], "2024-01-01", none, none⟩

/-- A bounce message whose recipients sequence is empty. -/
def emptyRecipMessage : Message :=
  ⟨NotificationType.Bounce, some emptyRecipBounce, none, none⟩

/-- A handshake envelope carrying a `SubscribeURL`. -/
def handshakeJson : Json :=
  Json.obj [("Type", Json.str "SubscriptionConfirmation"),
    ("SubscribeURL", Json.str "http://sns.example/confirm")]

/-- A handshake envelope with no `SubscribeURL` field. -/
def handshakeNoUrlJson : Json :=
  Json.obj [("Type", Json.str "SubscriptionConfirmation")]

/-- A handshake envelope with a `Message` but no `SubscribeURL` field. -/
def handshakeMsgNoUrlJson : Json :=
  Json.obj [("Type", Json.str "SubscriptionConfirmation"), ("Message", Json.str "hello")]

/-! ## Claim theorems -/

/-- C4: for every byte input that is not a valid JSON envelope (not JSON, or
`Type` missing or unrecognized), the ingestion entry point returns the
`200 "ok"` no-op success response and performs zero storage writes. -/
theorem c4_malformed_envelope_noop (b : Backend) (fetchOk : Bool)
    (oracle : Nat → Option String) (parseJson : String → Option Json)
    (d : Int) (st : DbState) (input : Option Json)
    (h : input = none ∨ ∃ j, input = some j ∧ decodeSnsNotification j = none) :
    handle_sns_notification b fetchOk oracle parseJson input d st
      = ⟨Outcome.responded (HttpResp.okText "ok"), st, []⟩ := by
  rcases h with h | ⟨j, rfl, hdec⟩
  · subst h; rfl
  · simp only [handle_sns_notification, hdec]

/-- Witness for C4 at a concrete non-envelope input. -/
theorem c4_malformed_envelope_noop_witness :
    handle_sns_notification Backend.pg true noFail (fun _ => none)
      (some (Json.str "not an envelope")) 2 emptyDb
      = ⟨Outcome.responded (HttpResp.okText "ok"), emptyDb, []⟩ :=
  c4_malformed_envelope_noop Backend.pg true noFail (fun _ => none) 2 emptyDb
    (some (Json.str "not an envelope"))
    (Or.inr ⟨Json.str "not an envelope", rfl, rfl⟩)

/-- C7 (amended): for every handshake envelope whose `SubscribeURL` is
present, the entry point answers `200 "ok"` regardless of the handshake
fetch outcome (`fetchOk` is universally quantified) and performs zero
storage writes. -/
theorem c7_handshake_with_url_noop (b : Backend) (fetchOk : Bool)
    (oracle : Nat → Option String) (parseJson : String → Option Json)
    (d : Int) (st : DbState) (j : Json) (n : SnsNotification) (url : String)
    (hdec : decodeSnsNotification j = some n)
    (hty : n.type_field = SnsNotificationType.SubscriptionConfirmation)
    (hurl : n.subscribe_url = some url) :
    handle_sns_notification b fetchOk oracle parseJson (some j) d st
      = ⟨Outcome.responded (HttpResp.okText "ok"), st, []⟩ := by
  obtain ⟨tf, m, su⟩ := n
  simp only at hty hurl
  subst hty hurl
  simp only [handle_sns_notification, hdec]

/-- Witness for C7 (amended) at a concrete handshake envelope, for both a
successful and a failed handshake fetch. -/
theorem c7_handshake_with_url_noop_witness :
    handle_sns_notification Backend.mysql true noFail (fun _ => none)
        (some handshakeJson) 1 emptyDb
        = ⟨Outcome.responded (HttpResp.okText "ok"), emptyDb, []⟩
    ∧ handle_sns_notification Backend.mysql false noFail (fun _ => none)
        (some handshakeJson) 1 emptyDb
        = ⟨Outcome.responded (HttpResp.okText "ok"), emptyDb, []⟩ :=
  ⟨c7_handshake_with_url_noop Backend.mysql true noFail (fun _ => none) 1 emptyDb
      handshakeJson ⟨SnsNotificationType.SubscriptionConfirmation, none,
        some "http://sns.example/confirm"⟩ "http://sns.example/confirm" rfl rfl rfl,
   c7_handshake_with_url_noop Backend.mysql false noFail (fun _ => none) 1 emptyDb
      handshakeJson ⟨SnsNotificationType.SubscriptionConfirmation, none,
        some "http://sns.example/confirm"⟩ "http://sns.example/confirm" rfl rfl rfl⟩

/-- Counterexample to C7 as stated: a decodable handshake envelope with no
`SubscribeURL` makes the entry point panic instead of answering `200 "ok"`. -/
theorem c7_counterexample_no_url :
    decodeSnsNotification handshakeNoUrlJson
        = some ⟨SnsNotificationType.SubscriptionConfirmation, none, none⟩
    ∧ (handle_sns_notification Backend.pg true noFail (fun _ => none)
        (some handshakeNoUrlJson) 3 emptyDb).out = Outcome.panicked
    ∧ ¬ (handle_sns_notification Backend.pg true noFail (fun _ => none)
        (some handshakeNoUrlJson) 3 emptyDb).out
          = Outcome.responded (HttpResp.okText "ok") :=
  ⟨rfl, rfl, fun h => nomatch h⟩

/-- C9: a well-formed handshake envelope without `SubscribeURL` decodes
successfully, yet the handler panics (unwrap of `None`) instead of returning
any HTTP response. -/
theorem c9_handshake_without_url_panics :
    decodeSnsNotification handshakeMsgNoUrlJson
        = some ⟨SnsNotificationType.SubscriptionConfirmation, some "hello", none⟩
    ∧ (handle_sns_notification Backend.mysql true noFail (fun _ => none)
        (some handshakeMsgNoUrlJson) 7 emptyDb).out = Outcome.panicked :=
  ⟨rfl, rfl⟩

/-- C10: a bounce notification whose bounce detail is present but whose
recipients sequence is empty performs zero storage writes and answers the
full-success `200 {"status":"success"}` response (not the plain `"ok"`). -/
theorem c10_empty_recipients_success (b : Backend) (oracle : Nat → Option String)
    (msg : Message) (d : Int) (st : DbState) (bd : Bounce)
    (hb : msg.bounce = some bd) (hr : bd.bounced_recipients = []) :
    handle_bounce b oracle msg d st = ⟨HttpResp.okJson successJson, st, []⟩ := by
  simp only [handle_bounce, hb, bounceRecipients, hr, List.map_nil, bounceLoop]

/-- Witness for C10 at a concrete empty-recipients bounce message. -/
theorem c10_empty_recipients_success_witness :
    handle_bounce Backend.mysql noFail emptyRecipMessage 7 emptyDb
      = ⟨HttpResp.okJson successJson, emptyDb, []⟩ :=
  c10_empty_recipients_success Backend.mysql noFail emptyRecipMessage 7 emptyDb
    emptyRecipBounce rfl rfl

/-- C3 fails on the code (code bug): bounce-detail scalar fields and the
recipients list are mandatory in the decoder (the structs derive `Default`
but lack `#[serde(default)]`), an unknown subtype has no catch-all variant,
and the handler unwraps the decode, so such payloads crash the
request-handling unit instead of decoding to defaults. -/
theorem c3_strict_decode_panics :
    decodeMessage (Json.obj [("notificationType", Json.str "Bounce"),
        ("bounce", Json.obj [("feedbackId", Json.str "f")])]) = none
    ∧ decodeMessage (Json.obj [("notificationType", Json.str "SomethingNew")]) = none
    ∧ (handle_sns_notification Backend.mysql true noFail
        (fun _ => some (Json.obj [("notificationType", Json.str "Bounce"),
          ("bounce", Json.obj [])]))
        (some (Json.obj [("Type", Json.str "Notification"),
          ("Message", Json.str "payload")]))
        7 emptyDb).out = Outcome.panicked :=
  ⟨rfl, rfl, rfl⟩

/-- C2 fails on the code (code bug): the conflict classifier matches the
MySQL-specific substring "Duplicate entry", which the Postgres
uniqueness-violation signal does not contain, so a duplicate
`(tenantId, email)` insert on the Postgres backend is answered with the 500
error response instead of the 400 conflict response (while MySQL conflicts
are classified correctly). -/
theorem c2_pg_duplicate_misclassified :
    strContains (dupSignal Backend.pg "a@x.com") "Duplicate entry" = false
    ∧ seededDb.hasRow 7 "a@x.com" = true
    ∧ (handle_bounce Backend.pg noFail sampleMessage 7 seededDb).resp
        = HttpResp.internalErrorJson (errorJson (dupSignal Backend.pg "a@x.com"))
    ∧ (handle_bounce Backend.mysql noFail sampleMessage 7 seededDb).resp
        = HttpResp.badRequestJson (conflictJson "a@x.com") :=
  ⟨rfl, rfl, rfl, rfl⟩

/-- C8: when the backend query itself succeeds (no connection failure, no
exogenous query error), the lookup answers `Ok(true)` exactly when at least
one row matches and `Ok(false)` when zero rows match, on either backend; a
zero-row result is never an error. -/
theorem c8_lookup_zero_rows_false (b : Backend) (st : DbState) (d : Int)
    (e : String) :
    is_email_blacklisted b false none st d e
      = HttpResp.okJson (Json.obj [("success", Json.bool true),
          ("data", Json.obj [("blacklisted", Json.bool (st.hasRow d e))])])
    ∧ (st.hasRow d e = true ↔ ∃ r ∈ st.rows, r.domain_id = d ∧ r.email = e) := by
  constructor
  · cases b <;> cases h : st.hasRow d e <;>
      simp [is_email_blacklisted, mysqlFetchOne, pgQueryOpt, renderFound, h]
  · simp [DbState.hasRow, List.any_eq_true, Bool.and_eq_true, beq_iff_eq]

/-- One insert either succeeds by appending the row (no exogenous failure, no
existing `(domain_id, email)` row), or fails with some message leaving the
store unchanged. -/
theorem insertStep_cases (b : Backend) (oracle : Nat → Option String) (k : Nat)
    (st : DbState) (d : Int) (e reason : String) :
    (oracle k = none ∧ st.hasRow d e = false ∧
      insertStep b oracle k st d e reason
        = (InsertOutcome.ok, ⟨st.rows ++ [⟨d, e, reason⟩]⟩))
    ∨ (∃ m, insertStep b oracle k st d e reason = (InsertOutcome.dbErr m, st)) := by
  unfold insertStep
  cases ho : oracle k with
  | some m => exact Or.inr ⟨m, rfl⟩
  | none =>
    cases hr : st.hasRow d e with
    | true => exact Or.inr ⟨dupSignal b e, by simp [hr]⟩
    | false => exact Or.inl ⟨rfl, rfl, by simp [hr]⟩

/-- Characterization of the persistence loop: when it reports no failure it
attempted exactly the whole recipient list, in order, appending one row per
recipient; when it reports a failure response it attempted exactly the first
`n` recipients for some `n ≥ 1`, appended rows for the first `n - 1` (which
all succeeded), stopped at the failing `n`-th insert, and the response is a
400 conflict or a 500 error body. -/
theorem bounceLoop_char (b : Backend) (oracle : Nat → Option String) (d : Int)
    (reason : String) (recips : List String) (st : DbState) (k : Nat) :
    ((bounceLoop b oracle d reason st k recips).resp = none →
      (bounceLoop b oracle d reason st k recips).attempts = recips ∧
      (bounceLoop b oracle d reason st k recips).st.rows
        = st.rows ++ insertedRows d reason recips)
    ∧ (∀ r0, (bounceLoop b oracle d reason st k recips).resp = some r0 →
      ∃ n, 0 < n ∧ n ≤ recips.length ∧
        (bounceLoop b oracle d reason st k recips).attempts = recips.take n ∧
        (bounceLoop b oracle d reason st k recips).st.rows
          = st.rows ++ insertedRows d reason (recips.take (n - 1)) ∧
        (insertStep b oracle (k + (n - 1))
          ⟨st.rows ++ insertedRows d reason (recips.take (n - 1))⟩ d
          (recips.getD (n - 1) "") reason).1 ≠ InsertOutcome.ok ∧
        ((∃ e, r0 = HttpResp.badRequestJson (conflictJson e)) ∨
         (∃ m, r0 = HttpResp.internalErrorJson (errorJson m)))) := by
  induction recips generalizing st k with
  | nil =>
    constructor
    · intro _
      simp [bounceLoop, insertedRows]
    · intro r0 h0
      simp [bounceLoop] at h0
  | cons e rest ih =>
    rcases insertStep_cases b oracle k st d e reason with ⟨ho, hr, heq⟩ | ⟨m, heq⟩
    · -- the head insert succeeds and appends its row
      simp only [bounceLoop, heq]
      constructor
      · intro hnone
        obtain ⟨ha, hrows⟩ := (ih ⟨st.rows ++ [⟨d, e, reason⟩]⟩ (k + 1)).1 hnone
        constructor
        · simp [ha]
        · simp [hrows, insertedRows, List.append_assoc]
      · intro r0 h0
        obtain ⟨n, hpos, hle, hatt, hrows, hfail, hshape⟩ :=
          (ih ⟨st.rows ++ [⟨d, e, reason⟩]⟩ (k + 1)).2 r0 h0
        obtain ⟨p, rfl⟩ : ∃ p, n = p + 1 :=
          ⟨n - 1, (Nat.succ_pred_eq_of_pos hpos).symm⟩
        refine ⟨p + 2, Nat.succ_pos _, ?_, ?_, ?_, ?_, hshape⟩
        · simpa using Nat.succ_le_succ hle
        · simp [hatt, List.take_succ_cons]
        · simp only [Nat.add_sub_cancel] at hrows
          have h21 : p + 2 - 1 = p + 1 := rfl
          rw [h21]
          simp [hrows, List.take_succ_cons, insertedRows, List.append_assoc]
        · simp only [Nat.add_sub_cancel] at hfail
          have h21 : p + 2 - 1 = p + 1 := rfl
          rw [h21]
          simp only [List.take_succ_cons, List.getD_cons_succ]
          have harith : k + (p + 1) = k + 1 + p := by omega
          rw [harith]
          simpa [insertedRows, List.append_assoc] using hfail
    · -- the head insert fails: classify and stop
      simp only [bounceLoop, heq]
      cases hsc : strContains m "Duplicate entry" with
      | true =>
        rw [if_pos rfl]
        constructor
        · intro hnone; exact absurd hnone (by simp)
        · intro r0 h0
          refine ⟨1, Nat.one_pos, by simp, by simp, by simp [insertedRows], ?_, ?_⟩
          · simp [insertedRows, heq]
          · exact Or.inl ⟨e, (Option.some.inj h0).symm⟩
      | false =>
        rw [if_neg Bool.false_ne_true]
        constructor
        · intro hnone; exact absurd hnone (by simp)
        · intro r0 h0
          refine ⟨1, Nat.one_pos, by simp, by simp, by simp [insertedRows], ?_, ?_⟩
          · simp [insertedRows, heq]
          · exact Or.inr ⟨m, (Option.some.inj h0).symm⟩

/-- C1: with bounce detail present, `handle_bounce` attempts inserts for the
normalized recipients strictly in payload order and stops at the first insert
failure: on the success response every recipient was inserted in order; on
any other response there is an `n ≥ 1` such that exactly the first `n`
recipients were attempted, the first `n - 1` were inserted (appended in
order), and the `n`-th insert is the failing one — recipients after it are
never attempted. -/
theorem c1_persist_in_order_fail_fast (b : Backend) (oracle : Nat → Option String)
    (msg : Message) (d : Int) (st : DbState) (bd : Bounce)
    (hb : msg.bounce = some bd) :
    ((handle_bounce b oracle msg d st).resp = HttpResp.okJson successJson →
      (handle_bounce b oracle msg d st).attempts = bounceRecipients bd
      ∧ (handle_bounce b oracle msg d st).st.rows
          = st.rows ++ insertedRows d (messageReason msg) (bounceRecipients bd))
    ∧ ((handle_bounce b oracle msg d st).resp ≠ HttpResp.okJson successJson →
      ∃ n, 0 < n ∧ n ≤ (bounceRecipients bd).length
        ∧ (handle_bounce b oracle msg d st).attempts = (bounceRecipients bd).take n
        ∧ (handle_bounce b oracle msg d st).st.rows
            = st.rows ++ insertedRows d (messageReason msg) ((bounceRecipients bd).take (n - 1))
        ∧ (insertStep b oracle (n - 1)
            ⟨st.rows ++ insertedRows d (messageReason msg) ((bounceRecipients bd).take (n - 1))⟩
            d ((bounceRecipients bd).getD (n - 1) "") (messageReason msg)).1
              ≠ InsertOutcome.ok) := by
  have hchar := bounceLoop_char b oracle d (messageReason msg) (bounceRecipients bd) st 0
  simp only [handle_bounce, hb]
  cases hres : (bounceLoop b oracle d (messageReason msg) st 0 (bounceRecipients bd)).resp with
  | none =>
    obtain ⟨ha, hrows⟩ := hchar.1 hres
    constructor
    · intro _
      exact ⟨ha, hrows⟩
    · intro hne
      exact absurd rfl hne
  | some r0 =>
    obtain ⟨n, hpos, hle, hatt, hrows, hfail, hshape⟩ := hchar.2 r0 hres
    constructor
    · intro hok
      rcases hshape with ⟨e, rfl⟩ | ⟨m, rfl⟩ <;> simp at hok
    · intro _
      refine ⟨n, hpos, hle, hatt, hrows, ?_⟩
      simpa using hfail

/-- Witness for C1 at a concrete one-recipient bounce on an empty store: the
loop attempts and inserts exactly that recipient. -/
theorem c1_persist_in_order_fail_fast_witness :
    (handle_bounce Backend.mysql noFail sampleMessage 7 emptyDb).attempts
        = bounceRecipients sampleBounce
    ∧ (handle_bounce Backend.mysql noFail sampleMessage 7 emptyDb).st.rows
        = emptyDb.rows
            ++ insertedRows 7 (messageReason sampleMessage) (bounceRecipients sampleBounce) :=
  (c1_persist_in_order_fail_fast Backend.mysql noFail sampleMessage 7 emptyDb
    sampleBounce rfl).1 rfl

/-! ## Lemmas about the address normalizer -/

/-- If the input lacks one of the brackets, the normalizer returns it
unchanged (the source's early return). -/
theorem extract_unchanged_of_missing_bracket (s : String)
    (h : s.data.contains '<' = false ∨ s.data.contains '>' = false) :
    extract_email_address s = s := by
  unfold extract_email_address
  rw [if_pos h]

/-- A list without `c` is left whole by `takeWhile (· ≠ c)`. -/
theorem takeWhile_ne_eq_self (c : Char) (cs : List Char)
    (h : cs.contains c = false) :
    cs.takeWhile (fun x => x ≠ c) = cs := by
  induction cs with
  | nil => rfl
  | cons a rest ih =>
    simp only [List.contains_cons, Bool.or_eq_false_iff] at h
    have hne : a ≠ c := by
      intro hh
      subst hh
      simpa using h.1
    rw [List.takeWhile_cons, if_pos (by simp [hne]), ih h.2]

/-- `lastIdxOf` finds nothing exactly on lists not containing the character. -/
theorem lastIdxOf_eq_none_iff (c : Char) (cs : List Char) :
    lastIdxOf c cs = none ↔ cs.contains c = false := by
  induction cs with
  | nil => simp [lastIdxOf]
  | cons a rest ih =>
    simp only [lastIdxOf, List.contains_cons, Bool.or_eq_false_iff]
    cases hl : lastIdxOf c rest with
    | some j =>
      constructor
      · intro hh
        exact absurd hh (by simp)
      · intro hh
        exact absurd (ih.mpr hh.2) (by simp [hl])
    | none =>
      have hrest := ih.mp hl
      by_cases hac : a = c
      · subst hac
        simp [hrest]
      · have hmem : c ∉ rest := by simpa using hrest
        simp [hac, beq_iff_eq, Ne.symm hac, hmem]

/-- `takeWhile` preserves the absence of a character. -/
theorem contains_takeWhile_false (c : Char) (p : Char → Bool) (cs : List Char)
    (h : cs.contains c = false) :
    (cs.takeWhile p).contains c = false := by
  induction cs with
  | nil => rfl
  | cons a rest ih =>
    simp only [List.contains_cons, Bool.or_eq_false_iff] at h
    rw [List.takeWhile_cons]
    cases hp : p a with
    | true =>
      rw [if_pos rfl]
      simp only [List.contains_cons, Bool.or_eq_false_iff]
      exact ⟨h.1, ih h.2⟩
    | false =>
      rw [if_neg Bool.false_ne_true]
      rfl

/-- Without any `>` in the input the regex `<(.*)>` cannot match. -/
theorem regexCapture_eq_none_of_no_gt (cs : List Char)
    (h : cs.contains '>' = false) :
    regexCapture cs = none := by
  induction cs with
  | nil => rfl
  | cons a rest ih =>
    simp only [List.contains_cons, Bool.or_eq_false_iff] at h
    unfold regexCapture
    by_cases ha : a = '<'
    · rw [if_pos ha]
      have hseg : (rest.takeWhile (fun x => x ≠ '\n')).contains '>' = false :=
        contains_takeWhile_false _ _ _ h.2
      rw [(lastIdxOf_eq_none_iff _ _).mpr hseg]
      exact ih h.2
    · rw [if_neg ha]
      exact ih h.2

/-- A last-index found in a dropped suffix locates the character globally. -/
theorem lastIdxOf_drop (c : Char) (n : Nat) (cs : List Char) (j : Nat)
    (h : lastIdxOf c (cs.drop n) = some j) :
    lastIdxOf c cs = some (n + j) := by
  induction n generalizing cs with
  | zero => simpa using h
  | succ m ih =>
    cases cs with
    | nil => simp [lastIdxOf] at h
    | cons a rest =>
      have hrest : lastIdxOf c rest = some (m + j) := ih rest (by simpa using h)
      simp only [lastIdxOf, hrest]
      congr 1
      omega

/-- A first-index hit means the character is present. -/
theorem contains_of_firstIdxOf (c : Char) (cs : List Char) (i : Nat)
    (h : firstIdxOf c cs = some i) :
    cs.contains c = true := by
  induction cs generalizing i with
  | nil => simp [firstIdxOf] at h
  | cons a rest ih =>
    unfold firstIdxOf at h
    by_cases ha : a = c
    · simp [List.contains_cons, ha]
    · rw [if_neg ha] at h
      cases hf : firstIdxOf c rest with
      | none => rw [hf] at h; simp at h
      | some i0 =>
        simp only [List.contains_cons, Bool.or_eq_true]
        exact Or.inr (ih i0 hf)

/-- A last-index hit means the character is present. -/
theorem contains_of_lastIdxOf (c : Char) (cs : List Char) (j : Nat)
    (h : lastIdxOf c cs = some j) :
    cs.contains c = true := by
  cases hc : cs.contains c with
  | true => rfl
  | false => rw [(lastIdxOf_eq_none_iff c cs).mpr hc] at h; exact absurd h (by simp)

/-- Characterization of the regex search on newline-free inputs: with the
first `<` at index `i`, the capture is everything from just after that `<` up
to the last `>` of the remainder, and there is no match at all when no `>`
follows the first `<`. -/
theorem regexCapture_char (cs : List Char) (i : Nat)
    (hnl : cs.contains '\n' = false) (hfi : firstIdxOf '<' cs = some i) :
    (∀ j, lastIdxOf '>' (cs.drop (i + 1)) = some j →
      regexCapture cs = some ((cs.drop (i + 1)).take j))
    ∧ (lastIdxOf '>' (cs.drop (i + 1)) = none → regexCapture cs = none) := by
  induction cs generalizing i with
  | nil => simp [firstIdxOf] at hfi
  | cons a rest ih =>
    have hnl2 : rest.contains '\n' = false := by
      simp only [List.contains_cons, Bool.or_eq_false_iff] at hnl
      exact hnl.2
    unfold firstIdxOf at hfi
    by_cases ha : a = '<'
    · rw [if_pos ha] at hfi
      have hi : i = 0 := by
        cases hfi
        rfl
      subst hi
      have hseg : rest.takeWhile (fun x => x ≠ '\n') = rest :=
        takeWhile_ne_eq_self _ _ hnl2
      constructor
      · intro j hj
        have hj2 : lastIdxOf '>' rest = some j := by simpa using hj
        unfold regexCapture
        rw [if_pos ha, hseg, hj2]
        simp
      · intro hnone
        have hnone2 : lastIdxOf '>' rest = none := by simpa using hnone
        unfold regexCapture
        rw [if_pos ha, hseg, hnone2]
        exact regexCapture_eq_none_of_no_gt rest
          ((lastIdxOf_eq_none_iff _ _).mp hnone2)
    · rw [if_neg ha] at hfi
      cases hf : firstIdxOf '<' rest with
      | none => rw [hf] at hfi; simp at hfi
      | some i0 =>
        rw [hf] at hfi
        have hi : i = i0 + 1 := by
          cases hfi
          rfl
        subst hi
        have hdrop : (a :: rest).drop (i0 + 1 + 1) = rest.drop (i0 + 1) := by
          simp [List.drop_succ_cons]
        constructor
        · intro j hj
          rw [hdrop] at hj
          unfold regexCapture
          rw [if_neg ha]
          rw [(ih i0 hnl2 hf).1 j hj]
          rw [hdrop]
        · intro hnone
          rw [hdrop] at hnone
          unfold regexCapture
          rw [if_neg ha]
          exact (ih i0 hnl2 hf).2 hnone

/-- C5 (amended): the normalizer returns the input unchanged when it lacks a
bracket; on newline-free input containing both brackets it returns the
substring strictly between the first `<` and the last `>` whenever some `>`
follows the first `<`, and the input unchanged otherwise.  (It is total by
construction; with a newline between the brackets the regex `.` cannot cross
the line and the input may be returned unchanged.) -/
theorem c5_normalizer_amended (s : String) :
    ((s.data.contains '<' = false ∨ s.data.contains '>' = false) →
      extract_email_address s = s)
    ∧ (∀ i, s.data.contains '\n' = false → firstIdxOf '<' s.data = some i →
        ((s.data.drop (i + 1)).contains '>' = true →
          extract_email_address s = specBetweenBrackets s)
        ∧ ((s.data.drop (i + 1)).contains '>' = false →
          extract_email_address s = s)) := by
  constructor
  · exact extract_unchanged_of_missing_bracket s
  · intro i hnl hfi
    constructor
    · intro hgt
      cases hloc : lastIdxOf '>' (s.data.drop (i + 1)) with
      | none =>
        rw [(lastIdxOf_eq_none_iff _ _).mp hloc] at hgt
        exact absurd hgt (by simp)
      | some jloc =>
        have hglob : lastIdxOf '>' s.data = some (i + 1 + jloc) :=
          lastIdxOf_drop '>' (i + 1) s.data jloc hloc
        have hlt : s.data.contains '<' = true := contains_of_firstIdxOf _ _ _ hfi
        have hgtg : s.data.contains '>' = true := contains_of_lastIdxOf _ _ _ hglob
        have hcap := (regexCapture_char s.data i hnl hfi).1 jloc hloc
        unfold extract_email_address
        have hmem1 : '<' ∈ s.data := by simpa using hlt
        have hmem2 : '>' ∈ s.data := by simpa using hgtg
        rw [if_neg (by simp [hmem1, hmem2]), hcap]
        simp only [specBetweenBrackets, hfi, hglob]
        have harith : i + 1 + jloc - (i + 1) = jloc := by omega
        rw [harith]
    · intro hngt
      have hnone : lastIdxOf '>' (s.data.drop (i + 1)) = none :=
        (lastIdxOf_eq_none_iff _ _).mpr hngt
      have hcap := (regexCapture_char s.data i hnl hfi).2 hnone
      by_cases hguard : s.data.contains '<' = false ∨ s.data.contains '>' = false
      · exact extract_unchanged_of_missing_bracket s hguard
      · unfold extract_email_address
        rw [if_neg hguard, hcap]

/-- Witness for C5 (amended) at the display-name-wrapped address of the
spec's own example. -/
theorem c5_normalizer_amended_witness :
    extract_email_address "B <b@x.com>" = specBetweenBrackets "B <b@x.com>"
    ∧ specBetweenBrackets "B <b@x.com>" = "b@x.com" :=
  ⟨((c5_normalizer_amended "B <b@x.com>").2 2 rfl rfl).1 rfl, by decide⟩

/-- Counterexample to C5 as stated: with a newline between the brackets the
regex finds no match and the input is returned unchanged, not the substring
strictly between the first `<` and the last `>`. -/
theorem c5_counterexample_newline :
    "a<b\nc>d".data.contains '<' = true
    ∧ "a<b\nc>d".data.contains '>' = true
    ∧ specBetweenBrackets "a<b\nc>d" = "b\nc"
    ∧ extract_email_address "a<b\nc>d" = "a<b\nc>d"
    ∧ extract_email_address "a<b\nc>d" ≠ specBetweenBrackets "a<b\nc>d" := by
  refine ⟨rfl, rfl, by decide, by decide, by decide⟩

/-- C6 (amended): a second normalization is the identity whenever the first
normalization's result lacks one of the brackets; in particular a bare
address is a fixed point. -/
theorem c6_idempotent_amended (s : String)
    (h : (extract_email_address s).data.contains '<' = false
       ∨ (extract_email_address s).data.contains '>' = false) :
    extract_email_address (extract_email_address s) = extract_email_address s
    ∧ extract_email_address "a@x.com" = "a@x.com" :=
  ⟨extract_unchanged_of_missing_bracket _ h, by decide⟩

/-- Witness for C6 (amended) at the spec's own example input. -/
theorem c6_idempotent_amended_witness :
    extract_email_address (extract_email_address "a@x.com")
        = extract_email_address "a@x.com"
    ∧ extract_email_address "a@x.com" = "a@x.com" :=
  c6_idempotent_amended "a@x.com" (Or.inl (by decide))

/-- Counterexample to C6 as stated: nested brackets make normalization
non-idempotent — the first pass keeps an inner `<...>` pair which the second
pass strips again. -/
theorem c6_counterexample_nested :
    extract_email_address "<x<y>z>" = "x<y>z"
    ∧ extract_email_address (extract_email_address "<x<y>z>") = "y"
    ∧ extract_email_address (extract_email_address "<x<y>z>")
        ≠ extract_email_address "<x<y>z>" := by
  refine ⟨by decide, by decide, by decide⟩

/-- Witness for C8: a lookup with zero matching rows answers `blacklisted:
false` rather than an error. -/
theorem c8_lookup_zero_rows_false_witness :
    is_email_blacklisted Backend.mysql false none emptyDb 7 "c@x.com"
      = HttpResp.okJson (Json.obj [("success", Json.bool true),
          ("data", Json.obj [("blacklisted", Json.bool false)])]) :=
  (c8_lookup_zero_rows_false Backend.mysql emptyDb 7 "c@x.com").1
